import Mathlib

/-!
Shallow embedding of the calendar automation app (`api/index.py`): the
pydantic `CalendarEvent` model with its `model_dump`, the prompt builder
`build_full_prompt`, the datetime normalization and event-body
construction of `create_calendar_event`, the credential helpers
`get_google_services` and `get_calendar_service`, and the `/generate`
workflow orchestrator.

External effects (file existence, credential loading, the Google and
Gemini network calls, `dateutil.parser.parse`) are modelled as oracle
fields of an `Oracles` record; a Python exception is an `Except.error`
carrying the exception text, and `try/except` blocks are translated to
matches on those `Except` values.  Everything else is translated
directly from the source.
-/

/-- A flash message as stored in the Flask session by the orchestrator:
a type tag (the source uses the strings "success" and "error") and a
human-readable text. -/
structure Msg where
  type : String
  text : String
deriving DecidableEq, Repr

/-- The start or end member of a fetched Google calendar event: a
dictionary holding an optional dateTime and an optional date key
(the fetch requests fields items(id,summary,start,end,location,description)). -/
structure GEventTime where
  dateTime : Option String
  date : Option String
deriving DecidableEq, Repr

/-- A calendar event as returned by `fetch_todays_events`: the items of
the provider response, with the keys the source requests.  Keys other
than start and end may be absent, hence the `Option`s. -/
structure FetchedEvent where
  id : Option String
  summary : Option String
  start : GEventTime
  «end» : GEventTime
  location : Option String
  description : Option String
deriving DecidableEq, Repr

/-- A task as returned by `fetch_tasks`: the items of the provider
response with keys items(id,title,due,parent,notes), each possibly
absent. -/
structure GTask where
  id : Option String
  title : Option String
  due : Option String
  parent : Option String
  notes : Option String
deriving DecidableEq, Repr

/-- Rendering of a possibly absent value inside a Python f-string:
an absent key read through `dict.get` yields `None`, which an f-string
prints as the text "None". -/
def py_str_opt (o : Option String) : String :=
  o.getD "None"

/-- One event line of `build_full_prompt`:
`f"- {ev.get('summary', '(no title)')} from {start} to {end}\n"` where
start is `ev['start'].get('dateTime', ev['start'].get('date'))` and
likewise for end. -/
def event_line (ev : FetchedEvent) : String :=
  let s := py_str_opt (ev.start.dateTime.orElse fun _ => ev.start.date)
  let e := py_str_opt (ev.«end».dateTime.orElse fun _ => ev.«end».date)
  let t := ev.summary.getD "(no title)"
  "- " ++ t ++ " from " ++ s ++ " to " ++ e ++ "\n"

/-- One task line of `build_full_prompt`:
`f"- {t.get('title', '(no title)')}, due {t.get('due', 'none')}"`, then
`", subtask of {t['parent']}"` when `t.get('parent')` is truthy (present
and a non-empty string), then a newline. -/
def task_line (t : GTask) : String :=
  let base := "- " ++ t.title.getD "(no title)" ++ ", due " ++ t.due.getD "none"
  let base :=
    match t.parent with
    | some p => if p = "" then base else base ++ ", subtask of " ++ p
    | none => base
  base ++ "\n"

/-- Translation of `build_full_prompt(events, tasks, custom)`: the
source appends to a growing `header` string inside two `for` loops and
finally returns `header + "\n" + custom`; the loops are the two
`List.foldl`s. -/
def build_full_prompt (events : List FetchedEvent) (tasks : List GTask)
    (custom : String) : String :=
  let header := "Today\x27s calendar events:\n"
  let header := events.foldl (fun h ev => h ++ event_line ev) header
  let header := header ++ "\nToday\x27s tasks with deadlines and parents:\n"
  let header := tasks.foldl (fun h t => h ++ task_line t) header
  header ++ "\n" ++ custom

/-- Concatenation of a list of lines, used to state the shape of the
prompt built by the two loops of `build_full_prompt`. -/
def concat_lines : List String → String
  | [] => ""
  | line :: rest => line ++ concat_lines rest

theorem foldl_append_concat_lines {α : Type} (f : α → String) :
    ∀ (l : List α) (acc : String),
      l.foldl (fun h x => h ++ f x) acc = acc ++ concat_lines (l.map f)
  | [], acc => by simp [concat_lines]
  | x :: xs, acc => by
    simp only [List.foldl, List.map, concat_lines]
    rw [foldl_append_concat_lines f xs (acc ++ f x), String.append_assoc]

/-- C3: `build_full_prompt` is a pure, deterministic function; its
output is the events header followed by exactly one `event_line` per
event in input order, then the tasks header followed by exactly one
`task_line` per task in input order, then a blank line and the custom
free text verbatim. -/
theorem C3_build_full_prompt_shape (E : List FetchedEvent) (T : List GTask)
    (S : String) :
    build_full_prompt E T S =
      "Today\x27s calendar events:\n" ++ concat_lines (E.map event_line) ++
        ("\nToday\x27s tasks with deadlines and parents:\n" ++
          (concat_lines (T.map task_line) ++ ("\n" ++ S))) ∧
    (E.map event_line).length = E.length ∧
    (T.map task_line).length = T.length ∧
    build_full_prompt E T S = build_full_prompt E T S := by
  refine ⟨?_, by simp, by simp, rfl⟩
  simp only [build_full_prompt, foldl_append_concat_lines, String.append_assoc]

/-- A Python `datetime.datetime` value as far as this program observes
it: calendar fields plus an optional fixed utcoffset in minutes
(`None` meaning a naive datetime).  Sub-second precision is not
observed by any property and is omitted. -/
structure PyDatetime where
  year : Nat
  month : Nat
  day : Nat
  hour : Nat
  minute : Nat
  second : Nat
  tz_offset_minutes : Option Int
deriving DecidableEq, Repr

/-- Zero padding to two digits, as `datetime.isoformat` prints field
values. -/
def pad2 (n : Nat) : String :=
  if n < 10 then "0" ++ toString n else toString n

/-- Zero padding of the year to four digits. -/
def pad4 (n : Nat) : String :=
  if n < 10 then "000" ++ toString n
  else if n < 100 then "00" ++ toString n
  else if n < 1000 then "0" ++ toString n
  else toString n

/-- Rendering of the utcoffset suffix of `datetime.isoformat`: empty
for a naive datetime, otherwise a signed HH:MM offset. -/
def offset_suffix : Option Int → String
  | none => ""
  | some k =>
    if k < 0 then "-" ++ pad2 ((-k).toNat / 60) ++ ":" ++ pad2 ((-k).toNat % 60)
    else "+" ++ pad2 (k.toNat / 60) ++ ":" ++ pad2 (k.toNat % 60)

/-- `datetime.isoformat()`: the canonical ISO-8601 rendering of a
Python datetime. -/
def isoformat (d : PyDatetime) : String :=
  pad4 d.year ++ "-" ++ pad2 d.month ++ "-" ++ pad2 d.day ++ "T" ++
    pad2 d.hour ++ ":" ++ pad2 d.minute ++ ":" ++ pad2 d.second ++
    offset_suffix d.tz_offset_minutes

/-- The value of the `start_datetime` / `end_datetime` fields of the
pydantic model, typed `Union[datetime, str]` in the source. -/
inductive DtOrStr where
  | dt (d : PyDatetime)
  | str (s : String)
deriving DecidableEq, Repr

/-- The pydantic `CalendarEvent` model of the source: `summary` is
required, the datetime fields are `Union[datetime, str]`, and the
remaining fields default to `None`. -/
structure CalendarEvent where
  summary : String
  start_datetime : DtOrStr
  end_datetime : DtOrStr
  description : Option String
  location : Option String
  color_id : Option String
  attendees : Option (List String)
  timezone : Option String
deriving DecidableEq, Repr

/-- The dictionary produced by `CalendarEvent.model_dump`: every field
of the model, with the datetime fields coerced to strings. -/
structure DumpedEvent where
  summary : String
  start_datetime : String
  end_datetime : String
  description : Option String
  location : Option String
  color_id : Option String
  attendees : Option (List String)
  timezone : Option String
deriving DecidableEq, Repr

/-- The coercion `model_dump` applies to the two datetime fields: an
actual `datetime` becomes its `isoformat()` string, a string is left
as it is. -/
def dump_dt : DtOrStr → String
  | .dt d => isoformat d
  | .str s => s

/-- Translation of `CalendarEvent.model_dump`: the field dictionary of
the model in which `start_datetime` and `end_datetime` are converted
with `isoformat()` when they hold `datetime` objects. -/
def model_dump (e : CalendarEvent) : DumpedEvent :=
  { summary := e.summary
    start_datetime := dump_dt e.start_datetime
    end_datetime := dump_dt e.end_datetime
    description := e.description
    location := e.location
    color_id := e.color_id
    attendees := e.attendees
    timezone := e.timezone }

/-- A JSON value, for the `events.json` artifact written with
`json.dump(event_dicts, f, default=str, indent=2)` and read back with
`json.loads`.  The textual layer of JSON is lossless on these values,
so the artifact is modelled at the level of this tree. -/
inductive Json where
  | null
  | str (s : String)
  | arr (items : List Json)
  | obj (fields : List (String × Json))

/-- JSON encoding of an optional string: `None` becomes `null`. -/
def json_opt_str : Option String → Json
  | none => .null
  | some s => .str s

/-- JSON encoding of the dictionary `model_dump` produces: exactly the
keys of the pydantic model, in declaration order. -/
def to_json (d : DumpedEvent) : Json :=
  .obj [("summary", .str d.summary),
        ("start_datetime", .str d.start_datetime),
        ("end_datetime", .str d.end_datetime),
        ("description", json_opt_str d.description),
        ("location", json_opt_str d.location),
        ("color_id", json_opt_str d.color_id),
        ("attendees", match d.attendees with
          | none => .null
          | some l => .arr (l.map Json.str)),
        ("timezone", json_opt_str d.timezone)]

/-- Lookup of a key in a JSON object field list, as `json.loads`
exposes a parsed object. -/
def jfield (fields : List (String × Json)) (k : String) : Option Json :=
  (fields.find? (fun p => p.1 = k)).map (fun p => p.2)

/-- Decoding of a nullable string field. -/
def of_json_opt_str : Json → Option (Option String)
  | .null => some none
  | .str s => some (some s)
  | _ => none

/-- Decoding of a JSON array of strings. -/
def decode_str_list : List Json → Option (List String)
  | [] => some []
  | Json.str s :: rest => (decode_str_list rest).map (fun l => s :: l)
  | _ => none

/-- Decoding of a nullable string array field. -/
def of_json_attendees : Json → Option (Option (List String))
  | .null => some none
  | .arr items => (decode_str_list items).map some
  | _ => none

/-- Decoding of the `events.json` artifact entry back into the
dictionary form. -/
def of_json (j : Json) : Option DumpedEvent :=
  match j with
  | .obj fields =>
    match jfield fields "summary", jfield fields "start_datetime",
        jfield fields "end_datetime" with
    | some (.str su), some (.str sd), some (.str ed) =>
      match (jfield fields "description").bind of_json_opt_str,
          (jfield fields "location").bind of_json_opt_str,
          (jfield fields "color_id").bind of_json_opt_str,
          (jfield fields "attendees").bind of_json_attendees,
          (jfield fields "timezone").bind of_json_opt_str with
      | some de, some lo, some co, some att, some tz =>
        some { summary := su, start_datetime := sd, end_datetime := ed,
               description := de, location := lo, color_id := co,
               attendees := att, timezone := tz }
      | _, _, _, _, _ => none
    | _, _, _ => none
  | _ => none

/-- Re-validation of a dumped dictionary through the pydantic model,
as in `CalendarEvent(**event_data)`: every field is taken as given; a
string offered to the `Union[datetime, str]` fields is an exact match
for `str` under pydantic smart-union validation, so it stays a
string. -/
def reparse (d : DumpedEvent) : CalendarEvent :=
  { summary := d.summary
    start_datetime := .str d.start_datetime
    end_datetime := .str d.end_datetime
    description := d.description
    location := d.location
    color_id := d.color_id
    attendees := d.attendees
    timezone := d.timezone }

/-- Serialization of a `CalendarEvent` to its artifact form, as the
orchestrator does before writing `events.json`. -/
def event_artifact (e : CalendarEvent) : Json :=
  to_json (model_dump e)

/-- Re-reading an artifact entry into a `CalendarEvent`. -/
def reparse_artifact (j : Json) : Option CalendarEvent :=
  (of_json j).map reparse

theorem decode_str_list_map (l : List String) :
    decode_str_list (l.map Json.str) = some l := by
  induction l with
  | nil => rfl
  | cons x xs ih => simp [List.map, decode_str_list, ih]

theorem of_json_to_json (d : DumpedEvent) : of_json (to_json d) = some d := by
  cases d with
  | mk su sd ed de lo co att tz =>
    cases att with
    | none => cases de <;> cases lo <;> cases co <;> cases tz <;> rfl
    | some l =>
      cases de <;> cases lo <;> cases co <;> cases tz <;>
        simp [to_json, of_json, jfield, json_opt_str, of_json_opt_str,
          of_json_attendees, List.find?, decode_str_list_map]

/-- C8: serializing a `GeneratedEvent` to its artifact dictionary form
(`model_dump`, then JSON) and re-parsing it back through the pydantic
model reproduces every field identically, except that the two datetime
fields are replaced by their string form — the canonical
`isoformat()` ISO-8601 string whenever the field held a `datetime`
value, and the very same string when it already held one. -/
theorem C8_roundtrip (e : CalendarEvent) (d : PyDatetime) (s : String) :
    reparse_artifact (event_artifact e) =
      some { e with start_datetime := .str (dump_dt e.start_datetime),
                    end_datetime := .str (dump_dt e.end_datetime) } ∧
    dump_dt (.dt d) = isoformat d ∧
    dump_dt (.str s) = s := by
  refine ⟨?_, rfl, rfl⟩
  simp only [reparse_artifact, event_artifact, of_json_to_json, Option.map_some]
  cases e; rfl

/-- The event dictionary handed to `create_calendar_event`.  In the
workflow this is a `model_dump` dictionary, but the function itself
only assumes: required `summary`, `start_datetime` and `end_datetime`
string entries, optional entries read with `dict.get` and a truthiness
test (for which an absent key and a `None` value are
indistinguishable), and a `timezone` entry read with
`dict.get('timezone', 'UTC')` — there presence of the key with value
`None` and absence of the key differ, hence the nested `Option`. -/
structure PyEvDict where
  summary : String
  start_datetime : String
  end_datetime : String
  description : Option String
  location : Option String
  color_id : Option String
  attendees : Option (List String)
  timezone : Option (Option String)
deriving DecidableEq, Repr

/-- The dictionary `model_dump` produces, seen as input to
`create_calendar_event`: every key of the model is present, in
particular the `timezone` key is present even when its value is
`None`. -/
def dumped_to_dict (d : DumpedEvent) : PyEvDict :=
  { summary := d.summary
    start_datetime := d.start_datetime
    end_datetime := d.end_datetime
    description := d.description
    location := d.location
    color_id := d.color_id
    attendees := d.attendees
    timezone := some d.timezone }

/-- Python `c in s` on a string, i.e. membership of a character. -/
def py_contains (s : String) (c : Char) : Bool :=
  s.data.any (fun x => x = c)

/-- Python slicing `s[10:]`: the characters from index 10 on (empty
when the string is shorter). -/
def py_drop (s : String) (n : Nat) : String :=
  String.mk (s.data.drop n)

/-- Python `s.replace(' ', 'T')`: every occurrence of a space is
replaced (for a single-character pattern this is a character map). -/
def space_to_T (s : String) : String :=
  String.mk (s.data.map (fun c => if c = ' ' then 'T' else c))

/-- Replacement of only the first space, stated from the words of the
spec ("replace the first space with a T separator") for comparison
with the source, which replaces every space. -/
def replace_first_space : List Char → List Char
  | [] => []
  | c :: cs => if c = ' ' then 'T' :: cs else c :: replace_first_space cs

/-- Spec-worded variant of the fallback: only the first space becomes
a "T". -/
def first_space_to_T (s : String) : String :=
  String.mk (replace_first_space s.data)

/-- Translation of the UTC-suffix step of `create_calendar_event`:
`if 'Z' not in iso and '+' not in iso and '-' not in iso[10:]:
iso += 'Z'`. -/
def force_utc (s : String) : String :=
  if !(py_contains s 'Z') && !(py_contains s '+') &&
      !(py_contains (py_drop s 10) '-') then
    s ++ "Z"
  else s

/-- Translation of the datetime normalization of
`create_calendar_event`.  The `try` block parses both strings with
`dateutil.parser.parse` (the oracle `parse`, `none` meaning the call
raises) and takes their `isoformat()`; if either parse raises, the
`except` block falls back for both strings to
`str.replace(' ', 'T')`.  Afterwards both strings receive the
UTC-suffix fix. -/
def normalize_datetimes (parse : String → Option String)
    (start_s end_s : String) : String × String :=
  match parse start_s, parse end_s with
  | some a, some b => (force_utc a, force_utc b)
  | _, _ => (force_utc (space_to_T start_s), force_utc (space_to_T end_s))

/-- The `event_body` dictionary `create_calendar_event` builds for the
provider insert call: summary, start and end with their dateTime and
timeZone members, and the optional keys added only when truthy. -/
structure EventBody where
  summary : String
  start_dateTime : String
  start_timeZone : Option String
  end_dateTime : String
  end_timeZone : Option String
  description : Option String
  location : Option String
  colorId : Option String
  attendees : Option (List String)
deriving DecidableEq, Repr

/-- Python truthiness filter on `ev.get(key)` for a string-valued
optional key: the key is copied into the body only when present and
non-empty. -/
def py_get_truthy (v : Option String) : Option String :=
  match v with
  | some s => if s = "" then none else some s
  | none => none

/-- Python truthiness filter for the attendees list: copied only when
present and non-empty. -/
def py_get_truthy_list (v : Option (List String)) : Option (List String) :=
  match v with
  | some l => if l = [] then none else some l
  | none => none

/-- Translation of `ev.get('timezone', 'UTC')`: the default "UTC"
applies only when the key is absent; a present key with value `None`
yields `None`. -/
def tz_of (ev : PyEvDict) : Option String :=
  match ev.timezone with
  | none => some "UTC"
  | some v => v

/-- Construction of the `event_body` dictionary of
`create_calendar_event` from the normalized datetime strings and the
event dictionary.  The attendees list is sent as address records
`{'email': e}`; the addresses themselves are kept here. -/
def event_body_of (start_iso end_iso : String) (ev : PyEvDict) : EventBody :=
  { summary := ev.summary
    start_dateTime := start_iso
    start_timeZone := tz_of ev
    end_dateTime := end_iso
    end_timeZone := tz_of ev
    description := py_get_truthy ev.description
    location := py_get_truthy ev.location
    colorId := py_get_truthy ev.color_id
    attendees := py_get_truthy_list ev.attendees }

/-- Translation of `create_calendar_event(service, ev)`: normalize the
two datetime strings, build the event body and hand it to the
provider insert call (the oracle `insert`; an `HttpError` there is
logged and re-raised, so it propagates unchanged). -/
def create_calendar_event (parse : String → Option String)
    (insert : EventBody → Except String (Option String)) (ev : PyEvDict) :
    Except String (Option String) :=
  let pair := normalize_datetimes parse ev.start_datetime ev.end_datetime
  insert (event_body_of pair.1 pair.2 ev)

/-- A parse oracle on which `dateutil.parser.parse` always raises. -/
def parse_fail : String → Option String :=
  fun _ => none

/-- C4 counterexample: the fallback replaces EVERY space, not only the
first one.  On the unparseable string "not a date" (two spaces) the
code produces "notTaTdateZ", while the claimed first-space-only
substitution would produce "notTa dateZ". -/
theorem C4_counterexample :
    (normalize_datetimes parse_fail "not a date" "x").1 = "notTaTdateZ" ∧
    force_utc (first_space_to_T "not a date") = "notTa dateZ" ∧
    "notTaTdateZ" ≠ "notTa dateZ" := by
  refine ⟨rfl, rfl, ?_⟩
  decide

/-- C4 as amended: the normalization is a three-stage total function —
when the lenient parse of either string fails, no exception escapes
and every space of each string is replaced by "T"; afterwards a "Z" is
appended exactly when the string contains no Z, no "+" and no "-"
from index 10 on (the code reading of "no explicit offset"); the
resulting string, malformed or not, is forwarded to the provider by
`create_calendar_event` rather than rejected locally. -/
theorem C4_fallback_every_space (parse : String → Option String)
    (s e : String) (h : parse s = none ∨ parse e = none) :
    normalize_datetimes parse s e =
      (force_utc (space_to_T s), force_utc (space_to_T e)) ∧
    (∀ u : String, py_contains u 'Z' = false → py_contains u '+' = false →
      py_contains (py_drop u 10) '-' = false → force_utc u = u ++ "Z") ∧
    (∀ (insert : EventBody → Except String (Option String)) (ev : PyEvDict),
      parse ev.start_datetime = none →
        create_calendar_event parse insert ev =
          insert (event_body_of (force_utc (space_to_T ev.start_datetime))
            (force_utc (space_to_T ev.end_datetime)) ev)) := by
  refine ⟨?_, ?_, ?_⟩
  · unfold normalize_datetimes
    rcases h with h | h
    · rw [h]
    · rw [h]
      cases parse s <;> rfl
  · intro u h1 h2 h3
    unfold force_utc
    rw [h1, h2, h3]
    rfl
  · intro insert ev hs
    unfold create_calendar_event normalize_datetimes
    rw [hs]

/-- Witness for C4: the amended normalization evaluated on the
unparseable pair ("not-a-date", "2025-01-02 09:30"). -/
theorem C4_witness :
    normalize_datetimes parse_fail "not-a-date" "2025-01-02 09:30" =
      (force_utc (space_to_T "not-a-date"),
        force_utc (space_to_T "2025-01-02 09:30")) ∧
    (∀ u : String, py_contains u 'Z' = false → py_contains u '+' = false →
      py_contains (py_drop u 10) '-' = false → force_utc u = u ++ "Z") ∧
    (∀ (insert : EventBody → Except String (Option String)) (ev : PyEvDict),
      parse_fail ev.start_datetime = none →
        create_calendar_event parse_fail insert ev =
          insert (event_body_of (force_utc (space_to_T ev.start_datetime))
            (force_utc (space_to_T ev.end_datetime)) ev)) :=
  C4_fallback_every_space parse_fail "not-a-date" "2025-01-02 09:30"
    (Or.inl rfl)

/-- C9: when the `timezone` key is present with value `None` — as
`model_dump` produces for every generated event lacking a timezone —
the event body carries `None` in `start.timeZone` and `end.timeZone`;
the "UTC" default applies only when the key is entirely absent. -/
theorem C9_timezone_none_not_utc (ev : PyEvDict) (s e : String)
    (d : DumpedEvent) :
    (ev.timezone = some none →
      (event_body_of s e ev).start_timeZone = none ∧
      (event_body_of s e ev).end_timeZone = none) ∧
    (ev.timezone = none →
      (event_body_of s e ev).start_timeZone = some "UTC" ∧
      (event_body_of s e ev).end_timeZone = some "UTC") ∧
    (dumped_to_dict d).timezone = some d.timezone := by
  refine ⟨?_, ?_, rfl⟩
  · intro h
    rw [show (event_body_of s e ev).start_timeZone = tz_of ev from rfl,
      show (event_body_of s e ev).end_timeZone = tz_of ev from rfl]
    unfold tz_of
    rw [h]
    exact ⟨rfl, rfl⟩
  · intro h
    rw [show (event_body_of s e ev).start_timeZone = tz_of ev from rfl,
      show (event_body_of s e ev).end_timeZone = tz_of ev from rfl]
    unfold tz_of
    rw [h]
    exact ⟨rfl, rfl⟩

/-- A concrete generated-event dictionary without a timezone, in the
key-present-with-None form `model_dump` produces. -/
def sample_dict_no_tz : PyEvDict :=
  { summary := "Focus block"
    start_datetime := "2025-01-02T09:00:00"
    end_datetime := "2025-01-02T10:00:00"
    description := none
    location := none
    color_id := none
    attendees := none
    timezone := some none }

/-- Witness for C9: evaluated on a concrete dictionary whose timezone
key is present with value `None`. -/
theorem C9_witness :
    (event_body_of "2025-01-02T09:00:00Z" "2025-01-02T10:00:00Z"
        sample_dict_no_tz).start_timeZone = none ∧
    (event_body_of "2025-01-02T09:00:00Z" "2025-01-02T10:00:00Z"
        sample_dict_no_tz).end_timeZone = none :=
  (C9_timezone_none_not_utc sample_dict_no_tz "2025-01-02T09:00:00Z"
    "2025-01-02T10:00:00Z" (model_dump {
      summary := "x", start_datetime := .str "a", end_datetime := .str "b",
      description := none, location := none, color_id := none,
      attendees := none, timezone := none })).1 rfl

/-- The observable state of a loaded Google credential: the `valid`,
`expired` and (presence of the) `refresh_token` attributes the source
inspects. -/
structure Creds where
  valid : Bool
  expired : Bool
  refresh_token : Bool
deriving DecidableEq, Repr

/-- An entry of the `created_events` list the orchestrator builds, one
per successfully inserted event:
`{'summary': ev['summary'], 'link': created.get('htmlLink', '#')}`. -/
structure CreatedEntry where
  summary : String
  link : String
deriving DecidableEq, Repr

/-- The per-client Flask session as the `/generate` orchestrator reads
and writes it.  Keys read with a `session.get` default are modelled by
that default standing for an absent key; `auth_url` and `auth_flow`
are `Option`s since the code compares `session.get('auth_flow')`
against a string.  The derived `generated_events_json` text mirror of
`generated_events` is not referred to by any property and is
omitted. -/
structure Session where
  messages : List Msg
  custom_prompt : String
  events : List FetchedEvent
  tasks : List GTask
  generated_events : List DumpedEvent
  created_events : List CreatedEntry
  step_fetch : Bool
  step_generate : Bool
  step_create : Bool
  auth_url : Option String
  auth_flow : Option String
deriving DecidableEq, Repr

/-- Instrumentation of a run, recording which workflow steps were
actually attempted: whether the fetch call and the generation call
were made, and the summaries of the events a creation attempt was
made for, in order. -/
structure Trace where
  fetch_attempted : Bool
  generate_attempted : Bool
  create_attempts : List String
deriving DecidableEq, Repr

/-- The running state threaded through the `/generate` handler: the
session, the local `messages` list and the instrumentation trace. -/
structure RunSt where
  sess : Session
  msgs : List Msg
  trace : Trace
deriving DecidableEq, Repr

/-- The response of the `/generate` handler: a redirect to the home
page or to the auth page. -/
inductive Redirect where
  | home
  | auth
deriving DecidableEq, Repr

/-- The external world of one run: file-existence checks, credential
loading and refreshing, the OAuth flow, the provider fetch and insert
calls, the Gemini call, the artifact writes and `dateutil` parsing.
An `Except.error` is a raised Python exception carrying its text; a
`parse_dt` result of `none` means `dateutil.parser.parse` raises.
The fields suffixed `_late` are the file states `get_calendar_service`
observes when the creation step starts. -/
structure Oracles where
  token_json_exists : Bool
  load_token_creds : Except String Creds
  refresh_creds : Except String Creds
  save_token_files : Except String Unit
  auth_flow_url : Except String String
  fetch_events : Except String (List FetchedEvent)
  fetch_tasks : Except String (List GTask)
  write_prompt_file : String → Except String Unit
  gen_events : String → Except String (List CalendarEvent)
  write_events_file : List DumpedEvent → Except String Unit
  token_pickle_exists : Bool
  load_pickle_creds : Except String Creds
  token_json_exists_late : Bool
  load_token_creds_late : Except String Creds
  save_pickle_file : Except String Unit
  parse_dt : String → Option String
  insert_event : EventBody → Except String (Option String)

/-- Translation of `get_google_services()`.  Returns the possibly
mutated session and the services pair — `some ()` for a real pair of
services, `none` for the `return None, None` of the pending-auth
branch.  A raised exception is the `Except.error` case, with the
session as it was (the auth-branch session writes happen only on
success, before the early return). -/
def get_google_services (o : Oracles) (s : Session) :
    Except String (Session × Option Unit) :=
  -- creds = None; if os.path.exists(TOKEN_PATH): creds = from_authorized_user_file(...)
  match (if o.token_json_exists then o.load_token_creds.map some
         else .ok none : Except String (Option Creds)) with
  | .error e => .error e
  | .ok creds =>
    -- if not creds or not creds.valid:
    match creds with
    | some c =>
      if c.valid then .ok (s, some ())
      else
        -- if creds and creds.expired and creds.refresh_token: refresh
        if c.expired && c.refresh_token then
          match o.refresh_creds with
          | .error e => .error e
          | .ok _ =>
            -- save token.json and token.pickle, then build the services
            match o.save_token_files with
            | .error e => .error e
            | .ok _ => .ok (s, some ())
        else
          -- web flow: build the auth URL, store it in the session, return None, None
          match o.auth_flow_url with
          | .error e => .error ("Authentication failed: " ++ e)
          | .ok u =>
            .ok ({s with auth_url := some u, auth_flow := some "active"}, none)
    | none =>
      match o.auth_flow_url with
      | .error e => .error ("Authentication failed: " ++ e)
      | .ok u =>
        .ok ({s with auth_url := some u, auth_flow := some "active"}, none)

/-- Translation of `get_calendar_service()`: try the pickled
credential, fall back to `token.json`, raise the authenticate-first
`ValueError` when neither yields valid credentials, and re-write the
pickle after a successful fallback. -/
def get_calendar_service (o : Oracles) : Except String Unit :=
  match (if o.token_pickle_exists then o.load_pickle_creds.map some
         else .ok none : Except String (Option Creds)) with
  | .error e => .error e
  | .ok creds =>
    match creds with
    | some c =>
      if c.valid then .ok ()
      else get_calendar_service_fallback o
    | none => get_calendar_service_fallback o
where
  /-- The `if not creds or not creds.valid` fallback body of
  `get_calendar_service`: re-read `token.json`, raise when still
  unusable, else save the pickle and build the service. -/
  get_calendar_service_fallback (o : Oracles) : Except String Unit :=
    match (if o.token_json_exists_late then o.load_token_creds_late.map some
           else .ok none : Except String (Option Creds)) with
    | .error e => .error e
    | .ok creds =>
      match creds with
      | some c =>
        if c.valid then
          match o.save_pickle_file with
          | .error e => .error e
          | .ok _ => .ok ()
        else .error "Please authenticate first via the homepage"
      | none => .error "Please authenticate first via the homepage"

/-- The fetch-step success message
`f'Fetched {len(events)} events and {len(tasks)} tasks'`. -/
def fetched_msg (ne nt : Nat) : Msg :=
  ⟨"success", s!"Fetched {ne} events and {nt} tasks"⟩

/-- The generation-step success message
`f'Generated {len(generated_events)} calendar events'`. -/
def generated_msg (n : Nat) : Msg :=
  ⟨"success", s!"Generated {n} calendar events"⟩

/-- The per-event creation failure message
`f"Error creating event '{ev['summary']}': {str(create_err)}"`. -/
def create_err_msg (summary err : String) : Msg :=
  ⟨"error", "Error creating event \x27" ++ summary ++ "\x27: " ++ err⟩

/-- The creation-step aggregate success message
`f'Created {len(created_events)} events in your Google Calendar'`. -/
def created_msg (n : Nat) : Msg :=
  ⟨"success", s!"Created {n} events in your Google Calendar"⟩

/-- The generation-step failure message
`f'Error generating events: {str(gen_err)}'`. -/
def gen_error_msg (e : String) : Msg :=
  ⟨"error", "Error generating events: " ++ e⟩

/-- The outer-handler message `f'Error: {str(e)}'`. -/
def outer_error_msg (e : String) : Msg :=
  ⟨"error", "Error: " ++ e⟩

/-- Construction of one `created_events` entry from the insert result:
the link defaults to "#" when the provider response has no
`htmlLink`. -/
def created_entry (summary : String) (link : Option String) : CreatedEntry :=
  ⟨summary, link.getD "#"⟩

/-- Translation of the per-event creation loop of the orchestrator:
for each dumped event dictionary, attempt `create_calendar_event`; on
success append a summary/link entry to `created_events`, on any
exception append one error message naming the event; every event is
attempted regardless of earlier failures.  Returns the created list,
the error messages and the attempted summaries, each in loop
order. -/
def run_create (o : Oracles) (evs : List DumpedEvent) :
    List CreatedEntry × List Msg × List String :=
  evs.foldl
    (fun acc ev =>
      match create_calendar_event o.parse_dt o.insert_event
          (dumped_to_dict ev) with
      | .ok res =>
        (acc.1 ++ [created_entry ev.summary res], acc.2.1, acc.2.2 ++ [ev.summary])
      | .error err =>
        (acc.1, acc.2.1 ++ [create_err_msg ev.summary err], acc.2.2 ++ [ev.summary]))
    ([], [], [])

/-- The creation step as the orchestrator runs it: the loop followed
by the aggregate success message reporting the length of the created
list. -/
def create_step (o : Oracles) (evs : List DumpedEvent) :
    List CreatedEntry × List Msg × List String :=
  let r := run_create o evs
  (r.1, r.2.1 ++ [created_msg r.1.length], r.2.2)

/-- The body of the inner `try` of the orchestrator (steps 2 and 3):
generate events with Gemini, write the `events.json` artifact, store
the dumped events and the step flag, acquire the calendar service and
run the creation loop.  An `Except.error` is an exception escaping to
the inner handler, carrying the state mutated so far. -/
def inner_generate_try (o : Oracles) (fp : String) (st : RunSt) :
    Except (RunSt × String) RunSt :=
  let st := {st with trace := {st.trace with generate_attempted := true}}
  match o.gen_events fp with
  | .error e => .error (st, e)
  | .ok generated =>
    let event_dicts := generated.map model_dump
    -- json.dump(event_dicts, f) into events.json
    match o.write_events_file event_dicts with
    | .error e => .error (st, e)
    | .ok _ =>
      let st := {st with
        sess := {st.sess with generated_events := event_dicts, step_generate := true},
        msgs := st.msgs ++ [generated_msg generated.length]}
      -- Step 3: calendar_service = get_calendar_service()
      match get_calendar_service o with
      | .error e => .error (st, e)
      | .ok _ =>
        let r := create_step o event_dicts
        let st := {st with
          sess := {st.sess with created_events := r.1, step_create := true},
          msgs := st.msgs ++ r.2.1,
          trace := {st.trace with
            create_attempts := st.trace.create_attempts ++ r.2.2}}
        .ok st

/-- The inner `try/except` of the orchestrator: any exception of the
generate/create steps is caught and recorded as one
`Error generating events:` message, after which the handler falls
through to the end of the outer `try`. -/
def inner_generate (o : Oracles) (fp : String) (st : RunSt) : RunSt :=
  match inner_generate_try o fp st with
  | .ok st => st
  | .error (st, e) => {st with msgs := st.msgs ++ [gen_error_msg e]}

/-- Step 1 of the orchestrator once real services are available: fetch
events and tasks, store them with the fetch flag, build and persist
the prompt, record the counts message, then run the inner
generate/create block.  Any exception here escapes to the outer
handler. -/
def fetch_and_generate (o : Oracles) (cp : String) (st : RunSt) :
    Except (RunSt × String) (RunSt × Redirect) :=
  let st := {st with trace := {st.trace with fetch_attempted := true}}
  match o.fetch_events with
  | .error e => .error (st, e)
  | .ok events =>
    match o.fetch_tasks with
    | .error e => .error (st, e)
    | .ok tasks =>
      let st := {st with sess :=
        {st.sess with events := events, tasks := tasks, step_fetch := true}}
      let fp := build_full_prompt events tasks cp
      -- open(PROMPT_FILE, 'w').write(full_prompt)
      match o.write_prompt_file fp with
      | .error e => .error (st, e)
      | .ok _ =>
        let st := {st with msgs := st.msgs ++ [fetched_msg events.length tasks.length]}
        .ok (inner_generate o fp st, Redirect.home)

/-- The outer `try` body of the `/generate` handler: acquire the
Google services, redirect to the auth page when the pending-auth
branch was taken, otherwise fetch and run the remaining steps. -/
def generate_try (o : Oracles) (cp : String) (st : RunSt) :
    Except (RunSt × String) (RunSt × Redirect) :=
  match get_google_services o st.sess with
  | .error e => .error (st, e)
  | .ok (s1, services) =>
    let st := {st with sess := s1}
    match services with
    | none =>
      -- if cal_service is None and session.get('auth_flow') == 'active'
      if s1.auth_flow = some "active" then .ok (st, Redirect.auth)
      else
        -- fetch_todays_events(None): AttributeError on the None service
        .error ({st with trace := {st.trace with fetch_attempted := true}},
          "AttributeError: \x27NoneType\x27 object has no attribute \x27events\x27")
    | some _ => fetch_and_generate o cp st

/-- Translation of the `/generate` route handler: reset the session
message list, store the submitted prompt, run the outer `try` and on
any exception record the outer error message; the early auth redirect
leaves `session['messages']` as the empty list written on entry, the
home paths write the collected messages.  The result type is
`Except` so that an uncaught exception would be visible as an
`Except.error`. -/
def generate (o : Oracles) (custom_prompt : String) (s0 : Session) :
    Except String (Session × Redirect × Trace) :=
  let s1 := {s0 with messages := [], custom_prompt := custom_prompt}
  match generate_try o custom_prompt ⟨s1, [], ⟨false, false, []⟩⟩ with
  | .ok (st, Redirect.auth) => .ok (st.sess, Redirect.auth, st.trace)
  | .ok (st, Redirect.home) =>
    .ok ({st.sess with messages := st.msgs}, Redirect.home, st.trace)
  | .error (st, e) =>
    .ok ({st.sess with messages := st.msgs ++ [outer_error_msg e]},
      Redirect.home, st.trace)

/-- The `created_events` entry an event contributes when its insert
succeeds, `none` when it raises. -/
def success_entry (o : Oracles) (ev : DumpedEvent) : Option CreatedEntry :=
  match create_calendar_event o.parse_dt o.insert_event (dumped_to_dict ev) with
  | .ok res => some (created_entry ev.summary res)
  | .error _ => none

/-- The error message an event contributes when its insert raises,
`none` when it succeeds. -/
def failure_entry (o : Oracles) (ev : DumpedEvent) : Option Msg :=
  match create_calendar_event o.parse_dt o.insert_event (dumped_to_dict ev) with
  | .ok _ => none
  | .error err => some (create_err_msg ev.summary err)

theorem run_create_loop (o : Oracles) :
    ∀ (evs : List DumpedEvent) (c : List CreatedEntry) (m : List Msg)
      (a : List String),
      evs.foldl
        (fun acc ev =>
          match create_calendar_event o.parse_dt o.insert_event
              (dumped_to_dict ev) with
          | .ok res =>
            (acc.1 ++ [created_entry ev.summary res], acc.2.1,
              acc.2.2 ++ [ev.summary])
          | .error err =>
            (acc.1, acc.2.1 ++ [create_err_msg ev.summary err],
              acc.2.2 ++ [ev.summary]))
        (c, m, a) =
      (c ++ evs.filterMap (success_entry o),
        m ++ evs.filterMap (failure_entry o),
        a ++ evs.map (fun ev => ev.summary))
  | [], c, m, a => by simp
  | ev :: evs, c, m, a => by
    simp only [List.foldl, List.filterMap_cons, List.map_cons, success_entry,
      failure_entry]
    cases h : create_calendar_event o.parse_dt o.insert_event
        (dumped_to_dict ev) with
    | ok res =>
      rw [run_create_loop o evs]
      simp
    | error err =>
      rw [run_create_loop o evs]
      simp

theorem run_create_spec (o : Oracles) (evs : List DumpedEvent) :
    run_create o evs =
      (evs.filterMap (success_entry o), evs.filterMap (failure_entry o),
        evs.map (fun ev => ev.summary)) := by
  unfold run_create
  rw [run_create_loop o evs]
  simp

theorem filterMap_success_failure_length (o : Oracles) :
    ∀ evs : List DumpedEvent,
      (evs.filterMap (success_entry o)).length +
        (evs.filterMap (failure_entry o)).length = evs.length
  | [] => by simp
  | ev :: evs => by
    have ih := filterMap_success_failure_length o evs
    simp only [List.filterMap_cons, success_entry, failure_entry]
    cases h : create_calendar_event o.parse_dt o.insert_event
        (dumped_to_dict ev) with
    | ok res => simp [ih]; omega
    | error err => simp [ih]; omega

/-- C2: per-event creation is isolated.  For every generated-event
dictionary list, every event is attempted regardless of earlier
failures (the attempt list is the summary of every event in order);
`created_events` holds exactly the entry of each successful insert;
the error messages are exactly one `create_err_msg` naming the failed
event for each failing insert; the aggregate success message reports
the length of the list actually created; and each event contributes
exactly one of the two, so successes and failures partition the
input. -/
theorem C2_per_event_isolation (o : Oracles) (evs : List DumpedEvent) :
    (create_step o evs).1 = evs.filterMap (success_entry o) ∧
    (create_step o evs).2.1 =
      evs.filterMap (failure_entry o) ++
        [created_msg (evs.filterMap (success_entry o)).length] ∧
    (create_step o evs).2.2 = evs.map (fun ev => ev.summary) ∧
    (evs.filterMap (success_entry o)).length +
      (evs.filterMap (failure_entry o)).length = evs.length := by
  unfold create_step
  rw [run_create_spec o evs]
  exact ⟨rfl, rfl, rfl, filterMap_success_failure_length o evs⟩

theorem inner_generate_try_ok_msgs (o : Oracles) (fp : String) (st st1 : RunSt)
    (h : inner_generate_try o fp st = .ok st1) :
    ∃ tail, st1.msgs = st.msgs ++ tail := by
  unfold inner_generate_try at h
  dsimp only at h
  split at h
  · exact absurd h (by simp)
  · next generated heq =>
    split at h
    · exact absurd h (by simp)
    · split at h
      · exact absurd h (by simp)
      · cases h with
        | refl =>
          exact ⟨generated_msg generated.length ::
            (create_step o (List.map model_dump generated)).2.1, by simp⟩

theorem inner_generate_try_error_msgs (o : Oracles) (fp : String)
    (st st1 : RunSt) (e : String)
    (h : inner_generate_try o fp st = .error (st1, e)) :
    ∃ tail, st1.msgs = st.msgs ++ tail := by
  unfold inner_generate_try at h
  dsimp only at h
  split at h
  · cases h with
    | refl => exact ⟨[], by simp⟩
  · next generated heq =>
    split at h
    · cases h with
      | refl => exact ⟨[], by simp⟩
    · split at h
      · cases h with
        | refl => exact ⟨[generated_msg generated.length], by simp⟩
      · exact absurd h (by simp)

theorem inner_generate_msgs (o : Oracles) (fp : String) (st : RunSt) :
    ∃ tail, (inner_generate o fp st).msgs = st.msgs ++ tail := by
  unfold inner_generate
  split
  · next st1 heq => exact inner_generate_try_ok_msgs o fp st st1 heq
  · next st1 e heq =>
    obtain ⟨tail, ht⟩ := inner_generate_try_error_msgs o fp st st1 e heq
    refine ⟨tail ++ [gen_error_msg e], ?_⟩
    dsimp only
    rw [ht]
    simp

theorem inner_generate_msgs_cons (o : Oracles) (fp : String) (st : RunSt)
    (base : List Msg) (m : Msg) (hb : st.msgs = base ++ [m]) :
    ∃ tail, (inner_generate o fp st).msgs = base ++ (m :: tail) := by
  obtain ⟨tail, ht⟩ := inner_generate_msgs o fp st
  refine ⟨tail, ?_⟩
  rw [ht, hb]
  simp

theorem fetch_and_generate_ok (o : Oracles) (cp : String) (st st1 : RunSt)
    (r : Redirect) (h : fetch_and_generate o cp st = .ok (st1, r)) :
    r = Redirect.home ∧ ∃ m tail, st1.msgs = st.msgs ++ (m :: tail) := by
  unfold fetch_and_generate at h
  dsimp only at h
  split at h
  · exact absurd h (by simp)
  · next events heq1 =>
    split at h
    · exact absurd h (by simp)
    · next tasks heq2 =>
      split at h
      · exact absurd h (by simp)
      · injection h with h2
        injection h2 with ha hb
        subst ha
        subst hb
        exact ⟨rfl, fetched_msg events.length tasks.length,
          inner_generate_msgs_cons o (build_full_prompt events tasks cp) _
            st.msgs (fetched_msg events.length tasks.length) rfl⟩

theorem generate_try_cases (o : Oracles) (cp : String) (st : RunSt) :
    (∃ st1 e, generate_try o cp st = .error (st1, e)) ∨
    (∃ st1, generate_try o cp st = .ok (st1, Redirect.auth) ∧
      st1.trace = st.trace ∧ st1.sess.auth_flow = some "active") ∨
    (∃ st1 m tail, generate_try o cp st = .ok (st1, Redirect.home) ∧
      st1.msgs = st.msgs ++ (m :: tail)) := by
  cases hg : generate_try o cp st with
  | error p =>
    obtain ⟨st1, e⟩ := p
    exact Or.inl ⟨st1, e, rfl⟩
  | ok p =>
    obtain ⟨st1, r⟩ := p
    unfold generate_try at hg
    split at hg
    · exact absurd hg (by simp)
    · next s1 services heq =>
      cases services with
      | none =>
        dsimp only at hg
        split at hg
        · next hf =>
          injection hg with hg2
          injection hg2 with ha hb
          subst ha
          subst hb
          exact Or.inr (Or.inl ⟨_, rfl, rfl, hf⟩)
        · exact absurd hg (by simp)
      | some u =>
        dsimp only at hg
        obtain ⟨hr, m, tail, hm⟩ := fetch_and_generate_ok o cp _ st1 r hg
        subst hr
        exact Or.inr (Or.inr ⟨st1, m, tail, rfl, hm⟩)

/-- C1 as amended: no exception ever propagates out of the `/generate`
orchestrator — every run completes with a normal result, whatever the
fetch, generation or creation oracles raise; the redirect is to the
home page carrying the non-empty status-message list collected by the
run, except on the pending-authentication path, which redirects to the
auth page before any of the fetch, generate or create steps is
attempted. -/
theorem C1_every_run_completes (o : Oracles) (cp : String) (s0 : Session) :
    ∃ s tr,
      (generate o cp s0 = .ok (s, Redirect.home, tr) ∧ s.messages ≠ []) ∨
      (generate o cp s0 = .ok (s, Redirect.auth, tr) ∧
        tr.fetch_attempted = false ∧ tr.generate_attempted = false ∧
        tr.create_attempts = [] ∧ s.auth_flow = some "active") := by
  unfold generate
  dsimp only
  rcases generate_try_cases o cp
      ⟨{s0 with messages := [], custom_prompt := cp}, [], ⟨false, false, []⟩⟩ with
    ⟨st1, e, h⟩ | ⟨st1, h, htr, hf⟩ | ⟨st1, m, tail, h, hm⟩
  · rw [h]
    exact ⟨_, _, Or.inl ⟨rfl, by simp⟩⟩
  · rw [h]
    refine ⟨_, _, Or.inr ⟨rfl, ?_, ?_, ?_, hf⟩⟩ <;> rw [htr]
  · rw [h]
    refine ⟨_, _, Or.inl ⟨rfl, ?_⟩⟩
    show st1.msgs ≠ []
    rw [hm]
    simp

/-- The session a run that raises while loading the stored credential
ends with: only `messages` and `custom_prompt` differ from the
previous state. -/
def early_failure_session (e cp : String) (s0 : Session) : Session :=
  {s0 with messages := [outer_error_msg e], custom_prompt := cp}

/-- C5 as amended: at the start of a workflow run only the message
list is reset (and the submitted prompt stored); the other
`WorkflowState` components — events, tasks, generated_events,
created_events and the three step flags — are not cleared on entry,
as witnessed by a run that fails before its first step: everything
except `messages` and `custom_prompt` keeps its value from the
previous run. -/
theorem C5_reset_only_messages (o : Oracles) (cp e : String) (s0 : Session)
    (h1 : o.token_json_exists = true) (h2 : o.load_token_creds = .error e) :
    generate o cp s0 =
      .ok (early_failure_session e cp s0, Redirect.home, ⟨false, false, []⟩) ∧
    (early_failure_session e cp s0).events = s0.events ∧
    (early_failure_session e cp s0).tasks = s0.tasks ∧
    (early_failure_session e cp s0).generated_events = s0.generated_events ∧
    (early_failure_session e cp s0).created_events = s0.created_events ∧
    (early_failure_session e cp s0).step_fetch = s0.step_fetch ∧
    (early_failure_session e cp s0).step_generate = s0.step_generate ∧
    (early_failure_session e cp s0).step_create = s0.step_create := by
  refine ⟨?_, rfl, rfl, rfl, rfl, rfl, rfl, rfl⟩
  unfold generate generate_try get_google_services
  rw [h1, h2]
  rfl

/-- The session a run ends with when the fetch step succeeds and the
generation step raises: fetch results and flag stored, a fetch-count
success message and one generation error message, everything else
untouched. -/
def gen_failure_session (cp g : String) (E : List FetchedEvent)
    (T : List GTask) (s0 : Session) : Session :=
  {s0 with messages := [fetched_msg E.length T.length, gen_error_msg g],
           custom_prompt := cp, events := E, tasks := T, step_fetch := true}

/-- C6 as amended: when generation raises after a successful fetch,
the run completes with a home redirect whose state has
`step_fetch = true`, the fetched events, tasks and counts message
still reported, exactly one error message (the generation one), and
no creation attempt; `step_generate` and `created_events` are left at
their values from before the run (false and empty for a fresh
session), since the run never resets them. -/
theorem C6_generation_failure (o : Oracles) (cp g : String) (c : Creds)
    (E : List FetchedEvent) (T : List GTask) (s0 : Session)
    (h1 : o.token_json_exists = true) (h2 : o.load_token_creds = .ok c)
    (h3 : c.valid = true) (h4 : o.fetch_events = .ok E)
    (h5 : o.fetch_tasks = .ok T)
    (h6 : o.write_prompt_file (build_full_prompt E T cp) = .ok ())
    (h7 : o.gen_events (build_full_prompt E T cp) = .error g) :
    generate o cp s0 =
      .ok (gen_failure_session cp g E T s0, Redirect.home, ⟨true, true, []⟩) ∧
    (gen_failure_session cp g E T s0).step_fetch = true ∧
    (gen_failure_session cp g E T s0).step_generate = s0.step_generate ∧
    (gen_failure_session cp g E T s0).created_events = s0.created_events ∧
    (gen_failure_session cp g E T s0).events = E ∧
    (gen_failure_session cp g E T s0).tasks = T ∧
    ([fetched_msg E.length T.length, gen_error_msg g].countP
      (fun m => m.type == "error")) = 1 := by
  refine ⟨?_, rfl, rfl, rfl, rfl, rfl, rfl⟩
  simp only [generate, generate_try, get_google_services, fetch_and_generate,
    inner_generate, inner_generate_try, h1, h2, h3, h4, h5, h6, h7, Except.map,
    if_true, gen_failure_session]
  rfl

/-- The session a pending-authentication run ends with: the messages
list as reset on entry, the stored prompt, and the authorization URL
and active-flow marker written by the auth branch. -/
def auth_pending_session (cp u : String) (s0 : Session) : Session :=
  {s0 with messages := [], custom_prompt := cp, auth_url := some u,
           auth_flow := some "active"}

/-- C7: when no credential file exists, the run returns the redirect
to the auth page with the session carrying the (non-empty)
authorization URL produced by the OAuth flow, and none of the fetch,
generate or create steps is attempted. -/
theorem C7_auth_pending (o : Oracles) (cp u : String) (s0 : Session)
    (h1 : o.token_json_exists = false) (h2 : o.auth_flow_url = .ok u)
    (h3 : u ≠ "") :
    generate o cp s0 =
      .ok (auth_pending_session cp u s0, Redirect.auth, ⟨false, false, []⟩) ∧
    (auth_pending_session cp u s0).auth_url = some u ∧ u ≠ "" := by
  refine ⟨?_, rfl, h3⟩
  unfold generate generate_try get_google_services
  rw [h1]
  dsimp only
  rw [h2]
  rfl

/-- The session a run ends with when fetch and generation succeed but
acquiring the calendar service raises: the generated artifacts and
flags stored, three messages, and the creation fields untouched. -/
def service_failure_session (cp : String) (E : List FetchedEvent)
    (T : List GTask) (G : List CalendarEvent) (s0 : Session) : Session :=
  {s0 with
    messages := [fetched_msg E.length T.length, generated_msg G.length,
      gen_error_msg "Please authenticate first via the homepage"],
    custom_prompt := cp, events := E, tasks := T, step_fetch := true,
    generated_events := G.map model_dump, step_generate := true}

/-- C10: when `get_calendar_service` raises at the start of the
creation step (here: neither credential file is available any more),
the run still completes normally with a home redirect; the exception
is caught by the generation-step handler, so exactly one error
message prefixed with the generation-error text is recorded, no
per-event creation is attempted, `step_create` is not set and
`created_events` is not modified. -/
theorem C10_calendar_service_failure (o : Oracles) (cp : String) (c : Creds)
    (E : List FetchedEvent) (T : List GTask) (G : List CalendarEvent)
    (s0 : Session)
    (h1 : o.token_json_exists = true) (h2 : o.load_token_creds = .ok c)
    (h3 : c.valid = true) (h4 : o.fetch_events = .ok E)
    (h5 : o.fetch_tasks = .ok T)
    (h6 : o.write_prompt_file (build_full_prompt E T cp) = .ok ())
    (h7 : o.gen_events (build_full_prompt E T cp) = .ok G)
    (h8 : o.write_events_file (G.map model_dump) = .ok ())
    (h9 : o.token_pickle_exists = false)
    (h10 : o.token_json_exists_late = false) :
    generate o cp s0 =
      .ok (service_failure_session cp E T G s0, Redirect.home,
        ⟨true, true, []⟩) ∧
    (service_failure_session cp E T G s0).step_create = s0.step_create ∧
    (service_failure_session cp E T G s0).created_events
        = s0.created_events ∧
    ([fetched_msg E.length T.length, generated_msg G.length,
      gen_error_msg "Please authenticate first via the homepage"].countP
        (fun m => m.type == "error")) = 1 := by
  refine ⟨?_, rfl, rfl, rfl⟩
  simp only [generate, generate_try, get_google_services, fetch_and_generate,
    inner_generate, inner_generate_try, get_calendar_service,
    get_calendar_service.get_calendar_service_fallback, h1, h2, h3, h4, h5,
    h6, h7, h8, h9, h10, Except.map, if_true, service_failure_session]
  rfl

/-- A session with no prior run recorded: every key at the default the
presentation layer assumes. -/
def fresh_session : Session :=
  ⟨[], "", [], [], [], [], false, false, false, none, none⟩

/-- A loaded credential that is valid. -/
def ok_creds : Creds :=
  ⟨true, false, true⟩

/-- A fully benign external world: a valid stored credential, empty
fetch results, a generation returning no events and succeeding
writes and inserts. -/
def base_oracles : Oracles :=
  { token_json_exists := true
    load_token_creds := .ok ok_creds
    refresh_creds := .ok ok_creds
    save_token_files := .ok ()
    auth_flow_url := .ok "https://accounts.google.com/o/oauth2/auth?client_id=x"
    fetch_events := .ok []
    fetch_tasks := .ok []
    write_prompt_file := fun _ => .ok ()
    gen_events := fun _ => .ok []
    write_events_file := fun _ => .ok ()
    token_pickle_exists := true
    load_pickle_creds := .ok ok_creds
    token_json_exists_late := true
    load_token_creds_late := .ok ok_creds
    save_pickle_file := .ok ()
    parse_dt := fun _ => none
    insert_event := fun _ => .ok (some "https://calendar.google.com/event?eid=1") }

/-- The world of a run with no credential file at all. -/
def auth_pending_oracles : Oracles :=
  { base_oracles with token_json_exists := false }

/-- C1 counterexample: the pending-authentication execution of the
`/generate` workflow raises no exception in any step, yet its
response is the redirect to the auth page, not to the home page. -/
theorem C1_counterexample :
    generate auth_pending_oracles "" fresh_session =
      .ok (auth_pending_session ""
          "https://accounts.google.com/o/oauth2/auth?client_id=x" fresh_session,
        Redirect.auth, ⟨false, false, []⟩) ∧
    Redirect.auth ≠ Redirect.home := by
  refine ⟨rfl, ?_⟩
  decide

/-- Witness for C1: the amended statement evaluated on the benign
world and a fresh session. -/
theorem C1_witness :
    ∃ s tr,
      (generate base_oracles "plan my day" fresh_session =
          .ok (s, Redirect.home, tr) ∧ s.messages ≠ []) ∨
      (generate base_oracles "plan my day" fresh_session =
          .ok (s, Redirect.auth, tr) ∧
        tr.fetch_attempted = false ∧ tr.generate_attempted = false ∧
        tr.create_attempts = [] ∧ s.auth_flow = some "active") :=
  C1_every_run_completes base_oracles "plan my day" fresh_session

/-- The world of a run whose stored credential file is unreadable. -/
def load_failure_oracles : Oracles :=
  { base_oracles with load_token_creds := .error "boom" }

/-- A session left over by an earlier successful run. -/
def stale_session : Session :=
  { fresh_session with
      step_fetch := true, step_generate := true, step_create := true,
      created_events := [⟨"Old event", "#"⟩],
      generated_events := [⟨"Old event", "2025-01-01T09:00:00", "2025-01-01T10:00:00", none, none, none, none, none⟩] }

/-- C5 counterexample: a run that fails before its first step keeps
the previous run artifacts — the claimed reset of the whole
`WorkflowState` on entry does not happen; only `messages` (and the
stored prompt) are overwritten. -/
theorem C5_counterexample :
    generate load_failure_oracles "" stale_session =
      .ok (early_failure_session "boom" "" stale_session, Redirect.home,
        ⟨false, false, []⟩) ∧
    (early_failure_session "boom" "" stale_session).step_create = true ∧
    (early_failure_session "boom" "" stale_session).created_events =
      [⟨"Old event", "#"⟩] := by
  exact ⟨rfl, rfl, rfl⟩

/-- Witness for C5: the amended statement evaluated on the unreadable
credential world and the stale session. -/
theorem C5_witness :
    generate load_failure_oracles "" stale_session =
      .ok (early_failure_session "boom" "" stale_session, Redirect.home,
        ⟨false, false, []⟩) ∧
    (early_failure_session "boom" "" stale_session).events
        = stale_session.events ∧
    (early_failure_session "boom" "" stale_session).tasks
        = stale_session.tasks ∧
    (early_failure_session "boom" "" stale_session).generated_events
        = stale_session.generated_events ∧
    (early_failure_session "boom" "" stale_session).created_events
        = stale_session.created_events ∧
    (early_failure_session "boom" "" stale_session).step_fetch
        = stale_session.step_fetch ∧
    (early_failure_session "boom" "" stale_session).step_generate
        = stale_session.step_generate ∧
    (early_failure_session "boom" "" stale_session).step_create
        = stale_session.step_create :=
  C5_reset_only_messages load_failure_oracles "" "boom" stale_session rfl rfl

/-- The world of a run in which the Gemini call raises. -/
def gen_failure_oracles : Oracles :=
  { base_oracles with gen_events := fun _ => .error "model down" }

/-- C6 counterexample: when generation fails, `step_generate` is not
reset to false — a session in which a previous run set the flag keeps
it, because the run never clears it.  (Likewise the old
`created_events` list survives.) -/
theorem C6_counterexample :
    generate gen_failure_oracles "" stale_session =
      .ok (gen_failure_session "" "model down" [] [] stale_session,
        Redirect.home, ⟨true, true, []⟩) ∧
    (gen_failure_session "" "model down" [] [] stale_session).step_generate
        = true ∧
    (gen_failure_session "" "model down" [] [] stale_session).created_events
        = [⟨"Old event", "#"⟩] := by
  exact ⟨rfl, rfl, rfl⟩

/-- Witness for C6: the amended statement evaluated on the
failing-generation world and a fresh session. -/
theorem C6_witness :
    generate gen_failure_oracles "" fresh_session =
      .ok (gen_failure_session "" "model down" [] [] fresh_session,
        Redirect.home, ⟨true, true, []⟩) ∧
    (gen_failure_session "" "model down" [] [] fresh_session).step_fetch
        = true ∧
    (gen_failure_session "" "model down" [] [] fresh_session).step_generate
        = fresh_session.step_generate ∧
    (gen_failure_session "" "model down" [] [] fresh_session).created_events
        = fresh_session.created_events ∧
    (gen_failure_session "" "model down" [] [] fresh_session).events = [] ∧
    (gen_failure_session "" "model down" [] [] fresh_session).tasks = [] ∧
    ([fetched_msg (0 : Nat) (0 : Nat),
      gen_error_msg "model down"].countP (fun m => m.type == "error")) = 1 := by
  have h := C6_generation_failure gen_failure_oracles "" "model down" ok_creds
    [] [] fresh_session rfl rfl rfl rfl rfl rfl rfl
  exact h

/-- Witness for C7: the pending-authentication run on a world with no
credential file. -/
theorem C7_witness :
    generate auth_pending_oracles "" fresh_session =
      .ok (auth_pending_session ""
          "https://accounts.google.com/o/oauth2/auth?client_id=x" fresh_session,
        Redirect.auth, ⟨false, false, []⟩) ∧
    (auth_pending_session ""
        "https://accounts.google.com/o/oauth2/auth?client_id=x"
        fresh_session).auth_url =
      some "https://accounts.google.com/o/oauth2/auth?client_id=x" ∧
    "https://accounts.google.com/o/oauth2/auth?client_id=x" ≠ "" :=
  C7_auth_pending auth_pending_oracles ""
    "https://accounts.google.com/o/oauth2/auth?client_id=x" fresh_session
    rfl rfl (by decide)

/-- The world of a run in which both credential files have vanished by
the time the creation step starts. -/
def service_failure_oracles : Oracles :=
  { base_oracles with
      token_pickle_exists := false, token_json_exists_late := false }

/-- Witness for C10: fetch and generation succeed, acquiring the
calendar service raises the authenticate-first error, and the run
completes with the error recorded by the generation handler. -/
theorem C10_witness :
    generate service_failure_oracles "" fresh_session =
      .ok (service_failure_session "" [] [] [] fresh_session, Redirect.home,
        ⟨true, true, []⟩) ∧
    (service_failure_session "" [] [] [] fresh_session).step_create
        = fresh_session.step_create ∧
    (service_failure_session "" [] [] [] fresh_session).created_events
        = fresh_session.created_events ∧
    ([fetched_msg (0 : Nat) (0 : Nat), generated_msg (0 : Nat),
      gen_error_msg "Please authenticate first via the homepage"].countP
        (fun m => m.type == "error")) = 1 :=
  C10_calendar_service_failure service_failure_oracles "" ok_creds [] [] []
    fresh_session rfl rfl rfl rfl rfl rfl rfl rfl rfl rfl
